import Mathlib

/-!
Verification of the client-side RPC engine core of rDSN
(`src/core/core/rpc_engine.cpp`), as a shallow embedding.

Machine integers (`uint64_t` ids and timestamps, `int` timeouts) are modelled
as `Nat`: all the quantities involved are non-negative in every reachable
state, and no overflowing arithmetic occurs on the verified paths.  The
per-bucket maps `_requests[id % MATCHER_BUCKET_NR]` keyed by `id` are modelled
as one total function from ids to optional entries: the bucket of an id is a
function of the id, so the union of the bucket maps is itself a map and
find/emplace/erase on the bucket at `id % B` coincide with find/emplace/erase
on the union.  Reference counting, spin locks and the transport layer are not
modelled; the lock-protected critical sections of the matcher are modelled as
atomic steps, which is exactly what the locks enforce.
-/

namespace RpcEngine

/-- Error codes surfaced by the engine (`error_code` in the source).  The
`other` constructor stands for any further registered error code, such as
`ERR_APP_DOWNGRADED`. -/
inductive error_code where
  | ok
  | network_failure
  | timeout
  | forward_to_others
  | service_not_found
  | handler_not_found
  | app_not_exist
  | operation_disabled
  | other (n : Nat)
deriving DecidableEq, Repr

/-- error_code::to_string, the registered name of the code (used by
`rpc_engine::reply` to stamp `server.error_name`). -/
def error_code.to_string : error_code → String
  | .ok => "ERR_OK"
  | .network_failure => "ERR_NETWORK_FAILURE"
  | .timeout => "ERR_TIMEOUT"
  | .forward_to_others => "ERR_FORWARD_TO_OTHERS"
  | .service_not_found => "ERR_SERVICE_NOT_FOUND"
  | .handler_not_found => "ERR_HANDLER_NOT_FOUND"
  | .app_not_exist => "ERR_APP_NOT_EXIST"
  | .operation_disabled => "ERR_OPERATION_DISABLED"
  | .other n => s!"ERR_UNKNOWN_{n}"

/-- host types of `rpc_address` (HOST_TYPE_INVALID / IPV4 / GROUP / URI). -/
inductive host_type where
  | invalid
  | ipv4
  | group
  | uri
deriving DecidableEq, Repr

/-- rpc_address: tagged variant over invalid / IPv4 / group handle / URI
handle.  Group and URI objects are identified by handles; their mutable
payload (leader hint, resolver) lives outside the message. -/
inductive rpc_address where
  | invalid
  | ipv4 (ip : Nat) (port : Nat)
  | group (gid : Nat)
  | uri (uid : Nat)
deriving DecidableEq, Repr

def rpc_address.type : rpc_address → host_type
  | .invalid => .invalid
  | .ipv4 _ _ => .ipv4
  | .group _ => .group
  | .uri _ => .uri

/-- rpc_address::port(); only IPv4 addresses carry a port. -/
def rpc_address.port : rpc_address → Nat
  | .ipv4 _ p => p
  | _ => 0

/-- group rpc modes (GRPC_TO_LEADER / GRPC_TO_ANY / GRPC_TO_ALL). -/
inductive grpc_mode_t where
  | to_leader
  | to_any
  | to_all
deriving DecidableEq, Repr

/-- gpid: global partition id, `(app_id, partition_index)`. -/
structure gpid_t where
  app_id : Nat
  partition_index : Nat
deriving DecidableEq, Repr

/-- gpid::value(), the packed 64-bit representation; zero iff unassigned. -/
def gpid_t.value (g : gpid_t) : Nat :=
  g.app_id * 2 ^ 32 + g.partition_index

/-- TASK_CODE_INVALID is code 0 in the dense task-code space. -/
def TASK_CODE_INVALID : Nat := 0

/-- message_ex, flattened: the header fields (`id`, `trace_id`,
`from_address`, `client.timeout_ms`, `gpid`, `server.error_code/name`,
context flag bits) together with the out-of-header members `to_address`,
`server_address`, `send_retry_count`, `local_rpc_code` and the weak
`io_session` reference (modelled by a session handle).  `body_addr` models
the (un)marshalled `rpc_address` payload of forward replies and forward
responses, the only body content the engine itself reads or writes. -/
structure message_ex where
  id : Nat
  trace_id : Nat
  local_rpc_code : Nat
  from_address : rpc_address
  to_address : rpc_address
  server_address : rpc_address
  timeout_ms : Nat
  gpid : gpid_t
  send_retry_count : Nat
  is_request : Bool
  is_forwarded : Bool
  is_forward_supported : Bool
  server_error_code : error_code
  server_error_name : String
  body_addr : rpc_address
  io_session : Option Nat
deriving DecidableEq, Repr

/-- the per-task-code policy record (`task_spec`), restricted to the fields
the engine core reads: the group rpc mode and the per-code resend
threshold `rpc_request_resend_timeout_milliseconds`. -/
structure task_spec where
  grpc_mode : grpc_mode_t
  rpc_request_resend_timeout_milliseconds : Nat
deriving DecidableEq, Repr

/-- one entry of the matcher table (`match_entry` in the source):
the pending response task (represented by the request it was created for,
`resp_task->get_request()`), the timeout timer task (by handle), and the
absolute resend deadline, 0 meaning resend disabled. -/
structure match_entry where
  request : message_ex
  timeout_task : Nat
  timeout_ts_ms : Nat
deriving DecidableEq, Repr

/-- the union of the `MATCHER_BUCKET_NR` bucket maps, keyed by request id. -/
def Requests : Type := Nat → Option match_entry

/-- pointwise update of the matcher table (map emplace / erase). -/
def upd (m : Requests) (k : Nat) (v : Option match_entry) : Requests :=
  fun k2 => if k2 = k then v else m k2

/-- environment of the engine: the per-code task specs
(`task_spec::get`), the per-group-handle `is_update_leader_automatically`
flag, the next fresh id handed out by `message_ex::new_id()`, a handle for a
freshly allocated `rpc_timeout_task`, and the decisions of the
fault-injection join points (`on_rpc_call`, `on_rpc_reply`) together with
whether `task::get_current_task()` is non-null at a `reply` call. -/
structure Env where
  specs : Nat → task_spec
  groups : Nat → Bool
  fresh_id : Nat
  fresh_timer : Nat
  hook_ok : Bool
  cur_task_present : Bool
  reply_hook_ok : Bool

/-- rpc_client_matcher::on_call: computes the resend deadline and the first
timer delay from the per-code resend threshold, and emplaces the entry into
the bucket of `request.id`.  Returns the new table and the delay the timeout
timer is scheduled with; `none` models the fatal
`dassert(pr.second, "the message is already on the fly!!!")` on a duplicate
id. -/
def on_call (E : Env) (now : Nat) (request : message_ex) (st : Requests) :
    Option (Requests × Nat) :=
  let sp := E.specs request.local_rpc_code
  let timeout_ms := request.timeout_ms
  -- reset timeout when resend is enabled
  let p : Nat × Nat :=
    if 0 < sp.rpc_request_resend_timeout_milliseconds ∧
        sp.rpc_request_resend_timeout_milliseconds < timeout_ms then
      (now + timeout_ms, sp.rpc_request_resend_timeout_milliseconds)
    else
      (0, timeout_ms)
  match st request.id with
  | some _ => none
  | none =>
      some (upd st request.id
              (some ⟨request, E.fresh_timer, p.1⟩), p.2)

/-- result of rpc_engine::call_ip: whether a fatal assertion fired
(address not IPv4 / port in the client range / missing from-address /
duplicate id on the matcher emplace), whether the request reached
`net->send_message`, the request as mutated by call_ip, the matcher table
afterwards, and the completions enqueued on the pending call (the
fault-injection deny path completes a non-null call with ERR_TIMEOUT). -/
structure call_ip_out where
  fatal : Bool
  sent : Bool
  request : message_ex
  requests : Requests
  completions : List error_code

/-- the mutations call_ip applies to the request before sending: set
`to_address`, optionally assign a fresh id, optionally raise the
`is_forwarded` flag. -/
def call_ip_mutate (E : Env) (addr : rpc_address) (reset_request_id : Bool)
    (set_forwarded : Bool) (req : message_ex) : message_ex :=
  let request := { req with to_address := addr }
  let request :=
    if reset_request_id then { request with id := E.fresh_id } else request
  if set_forwarded ∧ request.is_forwarded = false then
    { request with is_forwarded := true }
  else request

/-- rpc_engine::call_ip.  `has_call` is whether the `call` argument is
non-null.  The pick-out loop over the session sending queue and the network
table lookup are transport-level concerns not modelled here (the net is
assumed present; its absence is another fatal dassert).  The preconditions
checked by dasserts become the `fatal` outcome. -/
def call_ip (E : Env) (maxClientPort : Nat) (now : Nat) (addr : rpc_address)
    (request : message_ex) (has_call : Bool) (reset_request_id : Bool)
    (set_forwarded : Bool) (st : Requests) : call_ip_out :=
  if addr.type ≠ host_type.ipv4 ∨ addr.port ≤ maxClientPort ∨
      request.from_address = rpc_address.invalid then
    { fatal := true, sent := false, request := request, requests := st,
      completions := [] }
  else
    -- join point and possible fault injection (on_rpc_call)
    if ¬ E.hook_ok then
      { fatal := false, sent := false,
        request := call_ip_mutate E addr reset_request_id set_forwarded request,
        requests := st,
        completions := if has_call then [error_code.timeout] else [] }
    else if has_call then
      match on_call E now
          (call_ip_mutate E addr reset_request_id set_forwarded request) st with
      | none =>
          { fatal := true, sent := false,
            request := call_ip_mutate E addr reset_request_id set_forwarded request,
            requests := st, completions := [] }
      | some (st2, _) =>
          { fatal := false, sent := true,
            request := call_ip_mutate E addr reset_request_id set_forwarded request,
            requests := st2, completions := [] }
    else
      { fatal := false, sent := true,
        request := call_ip_mutate E addr reset_request_id set_forwarded request,
        requests := st, completions := [] }

/-- leader-hint mutations performed on a group address by the reply path. -/
inductive leader_op where
  | set_leader (a : rpc_address)
  | leader_forward
deriving DecidableEq, Repr

/-- observable outcome of rpc_client_matcher::on_recv_reply: the boolean it
returns (`found`), the matcher table afterwards, the `call->enqueue`
invocations performed on the pending call (each carrying its error code),
whether the reply message was deleted, the leader-hint mutation applied to
the group address, whether a fatal `dassert(false, "not implemented")`
fired, and whether the request was re-issued through call_ip. -/
structure recv_reply_out where
  found : Bool
  requests : Requests
  completions : List error_code
  reply_deleted : Bool
  leader_op : Option leader_op
  fatal : Bool
  reissued : Bool

/-- rpc_client_matcher::on_recv_reply.  The first lock-protected section
finds and erases the entry; an absent entry means the reply is deleted and
false returned.  Timer cancellation has no observable effect on the matcher
state (a cancelled timer simply never fires).  `call->enqueue(err, reply)`
is recorded in `completions` (its boolean result only selects drop
accounting on the network).  `now` is the clock at the nested
`call_ip`/`on_call` of the forward path. -/
def on_recv_reply (E : Env) (maxClientPort : Nat) (now : Nat) (key : Nat)
    (reply : Option message_ex) (delay_ms : Nat) (st : Requests) :
    recv_reply_out :=
  match st key with
  | none =>
      -- reply should not be referenced by anybody so far: delete it
      { found := false, requests := st, completions := [],
        reply_deleted := reply.isSome, leader_op := none, fatal := false,
        reissued := false }
  | some entry =>
      let st1 := upd st key none
      let req := entry.request
      let sp := E.specs req.local_rpc_code
      match reply with
      | none =>
          -- rpc is early terminated with empty reply
          let lop : Option leader_op :=
            match req.server_address with
            | rpc_address.group gid =>
                if sp.grpc_mode = grpc_mode_t.to_leader ∧ E.groups gid then
                  some leader_op.leader_forward
                else none
            | _ => none
          { found := true, requests := st1,
            completions := [error_code.network_failure],
            reply_deleted := false, leader_op := lop, fatal := false,
            reissued := false }
      | some rep =>
          if rep.server_error_code = error_code.forward_to_others then
            -- extract the forward target from the reply body
            let addr := rep.body_addr
            match req.server_address with
            | rpc_address.group gid =>
                let lop : Option leader_op :=
                  if sp.grpc_mode = grpc_mode_t.to_leader ∧ E.groups gid then
                    some (leader_op.set_leader addr)
                  else none
                -- do fake forwarding, reset request_id
                let cout := call_ip E maxClientPort now addr req true true false st1
                { found := true, requests := cout.requests,
                  completions := cout.completions, reply_deleted := true,
                  leader_op := lop, fatal := cout.fatal,
                  reissued := cout.sent }
            | _ =>
                -- dassert(false, "not implemented")
                { found := true, requests := st1, completions := [],
                  reply_deleted := false, leader_op := none, fatal := true,
                  reissued := false }
          else
            -- normal reply
            if rep.is_forwarded then
              match req.server_address with
              | rpc_address.group gid =>
                  let lop : Option leader_op :=
                    if sp.grpc_mode = grpc_mode_t.to_leader ∧
                        rep.server_error_code = error_code.ok ∧
                        E.groups gid then
                      some (leader_op.set_leader rep.from_address)
                    else none
                  { found := true, requests := st1,
                    completions := [rep.server_error_code],
                    reply_deleted := false, leader_op := lop, fatal := false,
                    reissued := false }
              | _ =>
                  -- dassert(false, "not implemented")
                  { found := true, requests := st1, completions := [],
                    reply_deleted := false, leader_op := none, fatal := true,
                    reissued := false }
            else
              { found := true, requests := st1,
                completions := [rep.server_error_code],
                reply_deleted := false, leader_op := none, fatal := false,
                reissued := false }

/-- result of the first lock-protected section of
rpc_client_matcher::on_rpc_timeout. -/
inductive tp1_result where
  | absent
  | complete (entry : match_entry)
  | pending (entry : match_entry)
deriving DecidableEq, Repr

/-- first lock-protected section of on_rpc_timeout: look the key up; with a
zero deadline erase the entry (the call will be completed with TIMEOUT),
with a non-zero deadline keep it and move to the resend decision. -/
def on_rpc_timeout_phase1 (key : Nat) (st : Requests) : Requests × tp1_result :=
  match st key with
  | none => (st, tp1_result.absent)
  | some entry =>
      if entry.timeout_ts_ms = 0 then
        (upd st key none, tp1_result.complete entry)
      else
        (st, tp1_result.pending entry)

/-- second lock-protected section of on_rpc_timeout: re-find the key; if the
entry is gone the resend is abandoned; if it is present, a negative resend
decision erases it, a positive one installs the fresh timeout task on it
(leaving `timeout_ts_ms` unchanged). -/
def on_rpc_timeout_phase2 (key : Nat) (resend0 : Bool) (new_tid : Nat)
    (st : Requests) : Requests × Bool :=
  match st key with
  | none => (st, false)
  | some entry =>
      if resend0 then
        (upd st key (some { entry with timeout_task := new_tid }), true)
      else
        (upd st key none, false)

/-- observable outcome of rpc_client_matcher::on_rpc_timeout. -/
structure timeout_out where
  requests : Requests
  completions : List error_code
  resent : Bool
  new_timer_delay : Option Nat

/-- everything on_rpc_timeout does after its first lock section found a
pending (non-zero deadline) entry: recompute the resend condition
`now < timeout_ts_ms && state == READY` (`ready` is the racy read of the
call state), run the second lock section, and on a confirmed resend
re-issue the request over call_ip with a null call and schedule the fresh
timer for the rest of the deadline.  No branch of this tail enqueues a
completion on the call. -/
def on_rpc_timeout_tail (E : Env) (maxClientPort : Nat) (key : Nat)
    (now : Nat) (ready : Bool) (entry : match_entry) (st : Requests) :
    timeout_out :=
  let ts := entry.timeout_ts_ms
  let resend0 : Bool := decide (now < ts) && ready
  let p := on_rpc_timeout_phase2 key resend0 E.fresh_timer st
  if p.2 then
    -- resend without touching the matcher, with the same request id
    let cout := call_ip E maxClientPort now entry.request.to_address
        entry.request false false false p.1
    { requests := cout.requests, completions := cout.completions,
      resent := true, new_timer_delay := some (ts - now) }
  else
    { requests := p.1, completions := [], resent := false,
      new_timer_delay := none }

/-- rpc_client_matcher::on_rpc_timeout, phases composed. -/
def on_rpc_timeout (E : Env) (maxClientPort : Nat) (key : Nat) (now : Nat)
    (ready : Bool) (st : Requests) : timeout_out :=
  match on_rpc_timeout_phase1 key st with
  | (st1, tp1_result.absent) =>
      { requests := st1, completions := [], resent := false,
        new_timer_delay := none }
  | (st1, tp1_result.complete _) =>
      { requests := st1, completions := [error_code.timeout],
        resent := false, new_timer_delay := none }
  | (st1, tp1_result.pending entry) =>
      on_rpc_timeout_tail E maxClientPort key now ready entry st1

/-- interleavings of one reply delivery and one timeout fire on the same id.
The bucket lock makes each lock-protected section atomic; the timeout path
has two such sections, so the reply may run before the first, between the
two, or after the second. -/
inductive race_sched where
  | replyFirst
  | timeoutFirst
  | timeoutBetween
deriving DecidableEq, Repr

/-- total number of `call->enqueue` completions delivered to the pending
call of `key` across one reply delivery and one timeout fire, for a given
interleaving of their atomic sections. -/
def race_total (E : Env) (mcp : Nat) (s : race_sched) (key : Nat)
    (now_r now_t : Nat) (ready : Bool) (reply : Option message_ex)
    (delay : Nat) (st0 : Requests) : Nat :=
  match s with
  | race_sched.replyFirst =>
      let r := on_recv_reply E mcp now_r key reply delay st0
      let t := on_rpc_timeout E mcp key now_t ready r.requests
      r.completions.length + t.completions.length
  | race_sched.timeoutFirst =>
      let t := on_rpc_timeout E mcp key now_t ready st0
      let r := on_recv_reply E mcp now_r key reply delay t.requests
      t.completions.length + r.completions.length
  | race_sched.timeoutBetween =>
      match on_rpc_timeout_phase1 key st0 with
      | (st1, tp1_result.absent) =>
          (on_recv_reply E mcp now_r key reply delay st1).completions.length
      | (st1, tp1_result.complete _) =>
          1 + (on_recv_reply E mcp now_r key reply delay st1).completions.length
      | (st1, tp1_result.pending entry) =>
          let r := on_recv_reply E mcp now_r key reply delay st1
          r.completions.length +
            (on_rpc_timeout_tail E mcp key now_t ready entry
              r.requests).completions.length

/-- rpc_engine::call: stamp `from_address` with the primary
address, draw `trace_id` from `rand::next_u64` over the full uint64 range
(`rand` is the value the generator returned), then dispatch on the server
address type (`call_address` switches to call_ip / call_group / call_uri).
The returned host type is the dispatch taken. -/
def rpc_engine_call (primary : rpc_address) (rand : Nat)
    (request : message_ex) : message_ex × host_type :=
  let request := { request with from_address := primary, trace_id := rand }
  (request, request.server_address.type)

/-- what the URI retry shim does with the completion it intercepts:
hand an error to the original callback, or re-issue the request after a
backoff gap. -/
inductive uri_action where
  | deliver (err : error_code)
  | retry (req : message_ex) (gap : Nat)
deriving DecidableEq, Repr

/-- observable outcome of the URI retry shim: the access failure reported
to the resolver (partition index and error), if any, and the action. -/
structure uri_retry_out where
  access_failure : Option (Nat × error_code)
  action : uri_action
deriving DecidableEq, Repr

/-- the retry shim rpc_engine::call_uri installs around the user callback
(the `new_callback` lambda): on a retryable partition error with time left
before the captured deadline it backs off and re-issues; otherwise the
original callback receives the error, translated to TIMEOUT when the
deadline has been exhausted.  `resolver_present` is whether
`get_resolver()` is still non-null when the callback runs. -/
def uri_retry_callback (deadline_ms : Nat) (resolver_present : Bool)
    (now : Nat) (err : error_code) (req : message_ex) : uri_retry_out :=
  if req.gpid.value ≠ 0 ∧ err ≠ error_code.ok ∧
      err ≠ error_code.handler_not_found ∧ err ≠ error_code.app_not_exist ∧
      err ≠ error_code.operation_disabled then
    if resolver_present then
      -- resolver->on_access_failure(partition_index, err), then the backoff
      let gap0 := 8 * 2 ^ req.send_retry_count
      let gap := if gap0 > 1000 then 1000 else gap0
      if now + gap < deadline_ms then
        { access_failure := some (req.gpid.partition_index, err),
          action := uri_action.retry
            { req with send_retry_count := req.send_retry_count + 1,
                       timeout_ms := deadline_ms - now - gap } gap }
      else
        { access_failure := some (req.gpid.partition_index, err),
          action := uri_action.deliver error_code.timeout }
    else
      { access_failure := none, action := uri_action.deliver err }
  else
    { access_failure := none, action := uri_action.deliver err }

/-- the three transports rpc_engine::reply can route a response over. -/
inductive reply_route where
  | session
  | client_net
  | server_net
deriving DecidableEq, Repr

/-- how rpc_engine::reply disposed of the response. -/
inductive reply_outcome where
  | dropped_invalid_target
  | sent (r : reply_route)
  | dropped_fault (r : reply_route)
deriving DecidableEq, Repr

/-- observable outcome of rpc_engine::reply: the response as (possibly)
stamped, whether the on_rpc_reply join point was executed, and the route
taken. -/
structure reply_out where
  response : message_ex
  hook_fired : Bool
  outcome : reply_outcome
deriving DecidableEq, Repr

/-- rpc_engine::reply.  A response with no owning session and an invalid
to-address is dropped up front, before the error is stamped and before the
hook; otherwise the error code and name are stamped into the header, the
on_rpc_reply join point runs when the rpc code of the response resolves to a
task_spec and there is a current task, and the response is routed over the
owning session (not forwarded), the client transport (forwarded), or the
server transport (no session); a hook denial diverts the send into drop
accounting. -/
def rpc_engine_reply (E : Env) (response : message_ex) (err : error_code) :
    reply_out :=
  if response.io_session = none ∧ response.to_address = rpc_address.invalid then
    { response := response, hook_fired := false,
      outcome := reply_outcome.dropped_invalid_target }
  else
    let response := { response with server_error_code := err,
                                    server_error_name := err.to_string }
    let hook_fired : Bool :=
      decide (response.local_rpc_code ≠ TASK_CODE_INVALID) && E.cur_task_present
    let no_fail : Bool := !hook_fired || E.reply_hook_ok
    match response.io_session with
    | some _ =>
        if response.is_forwarded = false then
          { response := response, hook_fired := hook_fired,
            outcome := if no_fail then reply_outcome.sent reply_route.session
                       else reply_outcome.dropped_fault reply_route.session }
        else
          { response := response, hook_fired := hook_fired,
            outcome := if no_fail then reply_outcome.sent reply_route.client_net
                       else reply_outcome.dropped_fault reply_route.client_net }
    | none =>
        { response := response, hook_fired := hook_fired,
          outcome := if no_fail then reply_outcome.sent reply_route.server_net
                     else reply_outcome.dropped_fault reply_route.server_net }

/-- Modelled from the spec: `message_ex::create_response` is declared
outside src/.  Per the data model of the spec, the synthesized response keeps
the header identity of the request (id, rpc code), swaps the from/to addresses,
inherits the io_session so the reply travels back over the session the
request arrived on, and clears the request flag. -/
def message_ex.create_response (m : message_ex) : message_ex :=
  { m with is_request := false,
           to_address := m.from_address,
           from_address := m.to_address }

/-- outcome of rpc_engine::forward: a fatal precondition dassert, a fake
forward (synthesized response handed to rpc_engine::reply with
FORWARD_TO_OTHERS), or a real forward through call_ip. -/
inductive forward_result where
  | fatal
  | fake (resp : message_ex) (rout : reply_out)
  | real (cout : call_ip_out)

/-- rpc_engine::forward.  Preconditions (request, forward supported, not
the local node) are dasserts.  A pure-client origin (from-port in the
client range) cannot be pushed a message, so the forward is faked: the
target address is marshalled into a response body and replied with
FORWARD_TO_OTHERS over the original session.  Otherwise the request is
copied (`copy_and_prepare_send` yields an identical message) and re-issued
via call_ip with a null call, the same request id, and the forwarded flag
set. -/
def rpc_engine_forward (E : Env) (maxClientPort now : Nat)
    (primary : rpc_address) (request : message_ex) (address : rpc_address)
    (st : Requests) : forward_result :=
  if ¬ request.is_request ∨ ¬ request.is_forward_supported ∨
      address = primary then
    forward_result.fatal
  else if request.from_address.port ≤ maxClientPort then
    let resp := { message_ex.create_response request with body_addr := address }
    forward_result.fake resp
      (rpc_engine_reply E resp error_code.forward_to_others)
  else
    forward_result.real
      (call_ip E maxClientPort now address request false false true st)

/-- one registered handler (`handler_entry`): the code, the extra name
alias, and the handler function (by handle). -/
structure handler_entry where
  code : Nat
  extra_name : String
  h : Nat
deriving DecidableEq, Repr

/-- the two indices of rpc_server_dispatcher: the name index `_handlers`
(both `code.to_string()` and `extra_name` alias the same entry) and the
dense per-code slots `_vhandlers`. -/
structure dispatcher_state where
  handlers : String → Option handler_entry
  vhandlers : Nat → Option handler_entry

/-- rpc_server_dispatcher::register_rpc_handler; `cname` is
task_code::to_string.  Installs the entry under both names and in the code
slot when neither name is taken; a conflict is a fatal dassert (the source
also returns false there). -/
def register_rpc_handler (cname : Nat → String) (code : Nat)
    (extra_name : String) (h : Nat) (st : dispatcher_state) :
    Bool × dispatcher_state :=
  match st.handlers (cname code), st.handlers extra_name with
  | none, none =>
      let ctx : handler_entry :=
        { code := code, extra_name := extra_name, h := h }
      let handlers1 : String → Option handler_entry :=
        fun s => if s = cname code then some ctx else st.handlers s
      let handlers2 : String → Option handler_entry :=
        fun s => if s = extra_name then some ctx else handlers1 s
      (true,
        { handlers := handlers2,
          vhandlers := fun c => if c = code then some ctx else st.vhandlers c })
  | _, _ => (false, st)

/-- rpc_server_dispatcher::unregister_rpc_handler: absent code returns
false; otherwise erase the `code.to_string()` key, erase the stored
`extra_name` key, and reset the code slot. -/
def unregister_rpc_handler (cname : Nat → String) (rpc_code : Nat)
    (st : dispatcher_state) : Bool × dispatcher_state :=
  match st.handlers (cname rpc_code) with
  | none => (false, st)
  | some ctx =>
      let handlers1 : String → Option handler_entry :=
        fun s => if s = cname rpc_code then none else st.handlers s
      let handlers2 : String → Option handler_entry :=
        fun s => if s = ctx.extra_name then none else handlers1 s
      (true,
        { handlers := handlers2,
          vhandlers := fun c => if c = rpc_code then none else st.vhandlers c })

/-- MAX_CLIENT_PORT: the largest pure-client port (the numeric constant is
declared outside src/; only the comparison against it matters here). -/
def MAX_CLIENT_PORT : Nat := 1023

/-- sample server addresses for concrete witnesses. -/
def addrA : rpc_address := rpc_address.ipv4 1 8000

def addrB : rpc_address := rpc_address.ipv4 2 9000

/-- sample per-code policy with resend disabled. -/
def sampleSpec : task_spec :=
  { grpc_mode := grpc_mode_t.to_leader,
    rpc_request_resend_timeout_milliseconds := 0 }

/-- sample per-code policy with a 200 ms resend threshold. -/
def resendSpec : task_spec :=
  { grpc_mode := grpc_mode_t.to_leader,
    rpc_request_resend_timeout_milliseconds := 200 }

/-- sample environment: all join points accept, group 0 auto-updates its
leader, fresh id 5, fresh timer handle 11. -/
def sampleEnv : Env :=
  { specs := fun _ => sampleSpec, groups := fun _ => true, fresh_id := 5,
    fresh_timer := 11, hook_ok := true, cur_task_present := true,
    reply_hook_ok := true }

/-- sample environment whose task specs enable resend. -/
def resendEnv : Env :=
  { sampleEnv with specs := fun _ => resendSpec }

/-- sample in-flight request: id 7, group-addressed, 1000 ms budget. -/
def sampleReq : message_ex :=
  { id := 7, trace_id := 1, local_rpc_code := 3, from_address := addrA,
    to_address := addrB, server_address := rpc_address.group 0,
    timeout_ms := 1000, gpid := { app_id := 0, partition_index := 0 },
    send_retry_count := 0, is_request := true, is_forwarded := false,
    is_forward_supported := true, server_error_code := error_code.ok,
    server_error_name := "", body_addr := rpc_address.invalid,
    io_session := none }

/-- sample matcher entry for `sampleReq` with resend disabled. -/
def sampleEntry : match_entry :=
  { request := sampleReq, timeout_task := 4, timeout_ts_ms := 0 }

/-- sample matcher entry for `sampleReq` with absolute deadline 1100 ms. -/
def resendEntry : match_entry :=
  { request := sampleReq, timeout_task := 4, timeout_ts_ms := 1100 }

/-- sample FORWARD_TO_OTHERS reply for `sampleReq`, carrying the redirect
target 9.0.0.0:9100 in its body. -/
def sampleForwardReply : message_ex :=
  { sampleReq with is_request := false, from_address := addrB,
                   to_address := addrA,
                   server_error_code := error_code.forward_to_others,
                   body_addr := rpc_address.ipv4 9 9100,
                   io_session := some 1 }

/-- sample request aimed at a plain IPv4 server address (no group). -/
def ipReq : message_ex := { sampleReq with server_address := addrB }

/-- matcher entry for the IPv4-addressed request. -/
def ipEntry : match_entry :=
  { request := ipReq, timeout_task := 4, timeout_ts_ms := 0 }

/-- sample URI-addressed request with an assigned partition (gpid 1.2). -/
def uriReq : message_ex :=
  { sampleReq with server_address := rpc_address.uri 0,
                   gpid := { app_id := 1, partition_index := 2 } }

/-- sample response whose rpc code never resolved (TASK_CODE_INVALID) but
which has an owning session. -/
def hooklessResp : message_ex :=
  { sampleReq with is_request := false, local_rpc_code := TASK_CODE_INVALID,
                   io_session := some 1 }

/-- the empty handler registry. -/
def emptyDispatcher : dispatcher_state :=
  { handlers := fun _ => none, vhandlers := fun _ => none }

/-- the empty matcher table. -/
def emptyRequests : Requests := fun _ => none

/-- matcher table holding only `sampleEntry` at key 7. -/
def sampleRequests : Requests := upd emptyRequests 7 (some sampleEntry)

/-- matcher table holding only `resendEntry` at key 7. -/
def resendRequests : Requests := upd emptyRequests 7 (some resendEntry)

/-- matcher table holding only `ipEntry` at key 7. -/
def ipRequests : Requests := upd emptyRequests 7 (some ipEntry)

@[simp] theorem upd_same (m : Requests) (k : Nat) (v : Option match_entry) :
    upd m k v k = v := by
  simp [upd]

@[simp] theorem upd_ne (m : Requests) (k : Nat) (v : Option match_entry)
    (k2 : Nat) (h : k2 ≠ k) : upd m k v k2 = m k2 := by
  simp [upd, h]

theorem call_ip_mutate_reset_id (E : Env) (addr : rpc_address) (sf : Bool)
    (req : message_ex) :
    (call_ip_mutate E addr true sf req).id = E.fresh_id := by
  simp [call_ip_mutate, apply_ite message_ex.id]

theorem call_ip_mutate_reset_noforward (E : Env) (addr : rpc_address)
    (req : message_ex) :
    call_ip_mutate E addr true false req =
      { req with to_address := addr, id := E.fresh_id } := by
  simp [call_ip_mutate]

theorem call_ip_mutate_forward (E : Env) (addr : rpc_address)
    (req : message_ex) (h : req.is_forwarded = false) :
    call_ip_mutate E addr false true req =
      { req with to_address := addr, is_forwarded := true } := by
  simp [call_ip_mutate, h]

theorem call_ip_reset_success (E : Env) (mcp now ip p : Nat)
    (req : message_ex) (st : Requests)
    (hport : mcp < p) (hfrom : req.from_address ≠ rpc_address.invalid)
    (hhook : E.hook_ok = true) (hfree : st E.fresh_id = none) :
    call_ip E mcp now (rpc_address.ipv4 ip p) req true true false st =
      { fatal := false, sent := true,
        request := { req with to_address := rpc_address.ipv4 ip p,
                              id := E.fresh_id },
        requests := upd st E.fresh_id (some
          { request := { req with to_address := rpc_address.ipv4 ip p,
                                  id := E.fresh_id },
            timeout_task := E.fresh_timer,
            timeout_ts_ms :=
              if 0 < (E.specs req.local_rpc_code).rpc_request_resend_timeout_milliseconds ∧
                  (E.specs req.local_rpc_code).rpc_request_resend_timeout_milliseconds <
                    req.timeout_ms then
                now + req.timeout_ms
              else 0 }),
        completions := [] } := by
  have hm := call_ip_mutate_reset_noforward E (rpc_address.ipv4 ip p) req
  unfold call_ip
  rw [hm]
  rw [if_neg (by simp [rpc_address.type, rpc_address.port, hfrom]; omega)]
  rw [if_neg (by simp [hhook])]
  unfold on_call
  simp [hfree]
  split <;> simp

theorem on_call_requests_ne (E : Env) (now : Nat) (request : message_ex)
    (st st2 : Requests) (d : Nat) (h : on_call E now request st = some (st2, d))
    (k : Nat) (hk : k ≠ request.id) : st2 k = st k := by
  unfold on_call at h
  cases hs : st request.id with
  | some e => rw [hs] at h; exact absurd h (by simp)
  | none =>
      rw [hs] at h
      simp only [Option.some.injEq, Prod.mk.injEq] at h
      rw [← h.1, upd_ne _ _ _ _ hk]

theorem call_ip_nocall_requests (E : Env) (mcp now : Nat) (addr : rpc_address)
    (req : message_ex) (rid sf : Bool) (st : Requests) :
    (call_ip E mcp now addr req false rid sf st).requests = st := by
  unfold call_ip
  split
  · rfl
  · split
    · rfl
    · rfl

theorem call_ip_nocall_completions (E : Env) (mcp now : Nat)
    (addr : rpc_address) (req : message_ex) (rid sf : Bool) (st : Requests) :
    (call_ip E mcp now addr req false rid sf st).completions = [] := by
  unfold call_ip
  split
  · rfl
  · split
    · rfl
    · rfl

theorem call_ip_completions_le (E : Env) (mcp now : Nat) (addr : rpc_address)
    (req : message_ex) (hc rid sf : Bool) (st : Requests) :
    (call_ip E mcp now addr req hc rid sf st).completions.length ≤ 1 := by
  unfold call_ip
  split
  · simp
  · split
    · cases hc <;> simp
    · split
      · split <;> simp
      · simp

theorem call_ip_reset_preserve (E : Env) (mcp now : Nat) (addr : rpc_address)
    (req : message_ex) (hc sf : Bool) (st : Requests) (k : Nat)
    (h1 : st k = none) (h2 : k ≠ E.fresh_id) :
    (call_ip E mcp now addr req hc true sf st).requests k = none := by
  unfold call_ip
  split
  · exact h1
  · split
    · exact h1
    · split
      · split
        · exact h1
        next st2 d hcall =>
          simp only []
          rw [on_call_requests_ne E now _ st st2 d hcall k
            (by rw [call_ip_mutate_reset_id]; exact h2)]
          exact h1
      · exact h1

theorem on_recv_reply_absent (E : Env) (mcp now key : Nat)
    (reply : Option message_ex) (delay : Nat) (st : Requests)
    (h : st key = none) :
    on_recv_reply E mcp now key reply delay st =
      { found := false, requests := st, completions := [],
        reply_deleted := reply.isSome, leader_op := none, fatal := false,
        reissued := false } := by
  unfold on_recv_reply
  rw [h]

theorem on_recv_reply_completions_le (E : Env) (mcp now key : Nat)
    (reply : Option message_ex) (delay : Nat) (st : Requests) :
    (on_recv_reply E mcp now key reply delay st).completions.length ≤ 1 := by
  unfold on_recv_reply
  cases h : st key with
  | none => simp
  | some entry =>
      cases reply with
      | none => simp
      | some rep =>
          simp only []
          split
          · cases ha : entry.request.server_address <;>
              simp [call_ip_completions_le]
          · split
            · cases ha : entry.request.server_address <;> simp
            · simp

theorem on_recv_reply_removes (E : Env) (mcp now key : Nat)
    (reply : Option message_ex) (delay : Nat) (st : Requests)
    (e : match_entry) (h : st key = some e) (hf2 : E.fresh_id ≠ key) :
    (on_recv_reply E mcp now key reply delay st).requests key = none := by
  unfold on_recv_reply
  rw [h]
  cases reply with
  | none => simp
  | some rep =>
      simp only []
      split
      · cases ha : e.request.server_address with
        | group gid =>
            exact call_ip_reset_preserve E mcp now _ _ true false _ key
              (by simp) (Ne.symm hf2)
        | invalid => simp
        | ipv4 ip p => simp
        | uri u => simp
      · split
        · cases ha : e.request.server_address <;> simp
        · simp

theorem tp1_absent (key : Nat) (st : Requests) (h : st key = none) :
    on_rpc_timeout_phase1 key st = (st, tp1_result.absent) := by
  unfold on_rpc_timeout_phase1
  rw [h]

theorem tp1_complete (key : Nat) (st : Requests) (e : match_entry)
    (h : st key = some e) (h0 : e.timeout_ts_ms = 0) :
    on_rpc_timeout_phase1 key st = (upd st key none, tp1_result.complete e) := by
  unfold on_rpc_timeout_phase1
  rw [h]
  simp [h0]

theorem tp1_pending (key : Nat) (st : Requests) (e : match_entry)
    (h : st key = some e) (h0 : ¬ e.timeout_ts_ms = 0) :
    on_rpc_timeout_phase1 key st = (st, tp1_result.pending e) := by
  unfold on_rpc_timeout_phase1
  rw [h]
  simp [h0]

theorem on_rpc_timeout_absent (E : Env) (mcp key now : Nat) (ready : Bool)
    (st : Requests) (h : st key = none) :
    on_rpc_timeout E mcp key now ready st =
      { requests := st, completions := [], resent := false,
        new_timer_delay := none } := by
  unfold on_rpc_timeout
  rw [tp1_absent key st h]

theorem on_rpc_timeout_complete_case (E : Env) (mcp key now : Nat)
    (ready : Bool) (st : Requests) (e : match_entry) (h : st key = some e)
    (h0 : e.timeout_ts_ms = 0) :
    on_rpc_timeout E mcp key now ready st =
      { requests := upd st key none, completions := [error_code.timeout],
        resent := false, new_timer_delay := none } := by
  unfold on_rpc_timeout
  rw [tp1_complete key st e h h0]

theorem on_rpc_timeout_pending_case (E : Env) (mcp key now : Nat)
    (ready : Bool) (st : Requests) (e : match_entry) (h : st key = some e)
    (h0 : ¬ e.timeout_ts_ms = 0) :
    on_rpc_timeout E mcp key now ready st =
      on_rpc_timeout_tail E mcp key now ready e st := by
  unfold on_rpc_timeout
  rw [tp1_pending key st e h h0]

theorem on_rpc_timeout_tail_completions (E : Env) (mcp key now : Nat)
    (ready : Bool) (e : match_entry) (st : Requests) :
    (on_rpc_timeout_tail E mcp key now ready e st).completions = [] := by
  unfold on_rpc_timeout_tail
  cases hp : (on_rpc_timeout_phase2 key (decide (now < e.timeout_ts_ms) && ready)
      E.fresh_timer st).2 <;>
    simp [hp, call_ip_nocall_completions]

end RpcEngine

namespace RpcEngine

/-- C3: on_call stores deadline now + timeout_ms and schedules the timer at R
when resend is enabled (R > 0 and timeout_ms > R); otherwise it stores
deadline 0 and schedules the timer at timeout_ms. -/
theorem on_call_deadline_and_timer (E : Env) (now : Nat) (request : message_ex)
    (st : Requests) (h : st request.id = none) :
    (0 < (E.specs request.local_rpc_code).rpc_request_resend_timeout_milliseconds ∧
        (E.specs request.local_rpc_code).rpc_request_resend_timeout_milliseconds <
          request.timeout_ms →
      on_call E now request st =
        some (upd st request.id
          (some ⟨request, E.fresh_timer, now + request.timeout_ms⟩),
          (E.specs request.local_rpc_code).rpc_request_resend_timeout_milliseconds)) ∧
    (¬ (0 < (E.specs request.local_rpc_code).rpc_request_resend_timeout_milliseconds ∧
        (E.specs request.local_rpc_code).rpc_request_resend_timeout_milliseconds <
          request.timeout_ms) →
      on_call E now request st =
        some (upd st request.id (some ⟨request, E.fresh_timer, 0⟩),
          request.timeout_ms)) := by
  constructor
  · intro hc
    unfold on_call
    rw [h]
    simp [hc]
  · intro hc
    unfold on_call
    rw [h]
    simp [hc]

/-- C1: for an id registered in the matcher, across any interleaving of one
reply delivery and one timeout fire on that id (the two timeout lock
sections may bracket the reply), at most one completion is ever enqueued on
the pending call; a reply that finds the entry gone returns false, deletes
the reply, enqueues nothing and leaves the table unchanged; a timeout that
finds the entry gone returns silently with no completion and no resend. -/
theorem reply_timeout_race_at_most_once (E : Env)
    (mcp now_r now_t key delay : Nat) (ready : Bool)
    (reply : Option message_ex) (st0 : Requests) (e : match_entry)
    (hentry : st0 key = some e) (hf2 : E.fresh_id ≠ key) :
    (∀ s : race_sched,
      race_total E mcp s key now_r now_t ready reply delay st0 ≤ 1) ∧
    (∀ st : Requests, st key = none →
      (on_recv_reply E mcp now_r key reply delay st).found = false ∧
      (on_recv_reply E mcp now_r key reply delay st).requests = st ∧
      (on_recv_reply E mcp now_r key reply delay st).completions = [] ∧
      (on_recv_reply E mcp now_r key reply delay st).reply_deleted =
        reply.isSome) ∧
    (∀ st : Requests, st key = none →
      (on_rpc_timeout E mcp key now_t ready st).completions = [] ∧
      (on_rpc_timeout E mcp key now_t ready st).requests = st ∧
      (on_rpc_timeout E mcp key now_t ready st).resent = false) := by
  refine ⟨?_, ?_, ?_⟩
  · intro s
    cases s with
    | replyFirst =>
        have hrm := on_recv_reply_removes E mcp now_r key reply delay st0 e
          hentry hf2
        have hr := on_recv_reply_completions_le E mcp now_r key reply delay st0
        simp only [race_total]
        rw [on_rpc_timeout_absent E mcp key now_t ready _ hrm]
        simpa using hr
    | timeoutFirst =>
        simp only [race_total]
        by_cases h0 : e.timeout_ts_ms = 0
        · rw [on_rpc_timeout_complete_case E mcp key now_t ready st0 e
            hentry h0]
          rw [on_recv_reply_absent E mcp now_r key reply delay
            (upd st0 key none) (upd_same st0 key none)]
          simp
        · rw [on_rpc_timeout_pending_case E mcp key now_t ready st0 e
            hentry h0]
          rw [on_rpc_timeout_tail_completions E mcp key now_t ready e st0]
          simpa using on_recv_reply_completions_le E mcp now_r key reply delay
            (on_rpc_timeout_tail E mcp key now_t ready e st0).requests
    | timeoutBetween =>
        simp only [race_total]
        by_cases h0 : e.timeout_ts_ms = 0
        · rw [tp1_complete key st0 e hentry h0]
          simp [on_recv_reply_absent E mcp now_r key reply delay
            (upd st0 key none) (upd_same st0 key none)]
        · rw [tp1_pending key st0 e hentry h0]
          simpa [on_rpc_timeout_tail_completions] using
            on_recv_reply_completions_le E mcp now_r key reply delay st0
  · intro st h
    rw [on_recv_reply_absent E mcp now_r key reply delay st h]
    exact ⟨rfl, rfl, rfl, rfl⟩
  · intro st h
    rw [on_rpc_timeout_absent E mcp key now_t ready st h]
    exact ⟨rfl, rfl, rfl⟩

/-- witness for C1 at a concrete table: the entry for id 7 is present, the
fresh id differs, and each interleaving delivers at most one completion. -/
theorem reply_timeout_race_at_most_once_witness :
    sampleRequests 7 = some sampleEntry ∧ sampleEnv.fresh_id ≠ 7 ∧
    race_total sampleEnv 1023 race_sched.replyFirst 7 10 20 true none 0
      sampleRequests ≤ 1 := by
  refine ⟨rfl, by decide, ?_⟩
  exact (reply_timeout_race_at_most_once sampleEnv 1023 10 20 7 0 true none
    sampleRequests sampleEntry rfl (by decide)).1 race_sched.replyFirst

/-- C2, evaluated at the failing input: entry for id 7 carries deadline
1100; the timer fires at 300 with the call READY, a resend is performed and
the next fire is scheduled for the remaining 800 ms — but the entry kept in
the table still carries deadline 1100, not 0 (the resend branch never
writes `timeout_ts_ms`), and the second fire, landing at the deadline
(1100), erases the entry silently: no TIMEOUT (nor any other) completion is
ever enqueued on the pending call, and no further resend happens. -/
theorem resend_keeps_deadline_and_second_fire_drops_call :
    (on_rpc_timeout resendEnv 1023 7 300 true resendRequests).resent = true ∧
    (on_rpc_timeout resendEnv 1023 7 300 true
        resendRequests).new_timer_delay = some 800 ∧
    (on_rpc_timeout resendEnv 1023 7 300 true resendRequests).requests 7 =
      some { request := sampleReq, timeout_task := 11,
             timeout_ts_ms := 1100 } ∧
    (on_rpc_timeout resendEnv 1023 7 1100 true
        (on_rpc_timeout resendEnv 1023 7 300 true
          resendRequests).requests).completions = [] ∧
    (on_rpc_timeout resendEnv 1023 7 1100 true
        (on_rpc_timeout resendEnv 1023 7 300 true
          resendRequests).requests).resent = false ∧
    (on_rpc_timeout resendEnv 1023 7 1100 true
        (on_rpc_timeout resendEnv 1023 7 300 true
          resendRequests).requests).requests 7 = none := by
  exact ⟨rfl, rfl, rfl, rfl, rfl, rfl⟩

/-- witness for C3 at concrete inputs: with threshold 200 and budget 1000
the deadline is 100 + 1000 and the timer fires at 200; with threshold 0 the
deadline is 0 and the timer fires at 1000. -/
theorem on_call_deadline_and_timer_witness :
    emptyRequests sampleReq.id = none ∧
    on_call resendEnv 100 sampleReq emptyRequests =
      some (upd emptyRequests sampleReq.id
        (some { request := sampleReq, timeout_task := 11,
                timeout_ts_ms := 1100 }), 200) ∧
    on_call sampleEnv 100 sampleReq emptyRequests =
      some (upd emptyRequests sampleReq.id
        (some { request := sampleReq, timeout_task := 11,
                timeout_ts_ms := 0 }), 1000) := by
  refine ⟨rfl, ?_, ?_⟩
  · exact (on_call_deadline_and_timer resendEnv 100 sampleReq emptyRequests
      rfl).1 (by decide)
  · exact (on_call_deadline_and_timer sampleEnv 100 sampleReq emptyRequests
      rfl).2 (by decide)

/-- C7 counterexample: `rand::next_u64` is called with the full uint64
interval, which contains zero; when the generator returns 0 the stamped
trace id is 0, so the assigned trace id is not guaranteed non-zero. -/
theorem call_trace_id_can_be_zero :
    (rpc_engine_call addrA 0 sampleReq).1.trace_id = 0 := rfl

/-- C7 (amended): call stamps from_address with the primary address and
trace_id with the value drawn from the generator (a uniformly random
uint64, possibly zero) before dispatching on the server address type, and
changes nothing else about the request. -/
theorem call_stamps_then_dispatches (primary : rpc_address) (rand : Nat)
    (request : message_ex) :
    (rpc_engine_call primary rand request).1.from_address = primary ∧
    (rpc_engine_call primary rand request).1.trace_id = rand ∧
    (rpc_engine_call primary rand request).1.server_address =
      request.server_address ∧
    (rpc_engine_call primary rand request).2 =
      request.server_address.type ∧
    (rpc_engine_call primary rand request).1.id = request.id ∧
    (rpc_engine_call primary rand request).1.timeout_ms =
      request.timeout_ms := by
  exact ⟨rfl, rfl, rfl, rfl, rfl, rfl⟩

/-- C4: when on_recv_reply finds the entry and the reply is a
FORWARD_TO_OTHERS redirect carrying a server-range IPv4 address in its
body, for a group-addressed request in GRPC_TO_LEADER mode with automatic
leader update: the body address is installed as the group leader hint, the
reply is deleted, the request is re-issued through call_ip to that address
with a fresh request id — the old entry is gone and a new matcher entry
holding the same pending call (the same request with only id and
to_address changed) sits under the fresh id — and no completion is
enqueued on the call. -/
theorem recv_reply_forward_redirect (E : Env) (mcp now key delay : Nat)
    (st : Requests) (e : match_entry) (rep : message_ex) (gid ip p : Nat)
    (hentry : st key = some e)
    (hgroup : e.request.server_address = rpc_address.group gid)
    (hmode : (E.specs e.request.local_rpc_code).grpc_mode =
      grpc_mode_t.to_leader)
    (hauto : E.groups gid = true)
    (herr : rep.server_error_code = error_code.forward_to_others)
    (hbody : rep.body_addr = rpc_address.ipv4 ip p)
    (hport : mcp < p)
    (hfrom : e.request.from_address ≠ rpc_address.invalid)
    (hhook : E.hook_ok = true)
    (hfree : st E.fresh_id = none)
    (hne : E.fresh_id ≠ key) :
    (on_recv_reply E mcp now key (some rep) delay st).found = true ∧
    (on_recv_reply E mcp now key (some rep) delay st).leader_op =
      some (leader_op.set_leader rep.body_addr) ∧
    (on_recv_reply E mcp now key (some rep) delay st).reply_deleted = true ∧
    (on_recv_reply E mcp now key (some rep) delay st).fatal = false ∧
    (on_recv_reply E mcp now key (some rep) delay st).reissued = true ∧
    (on_recv_reply E mcp now key (some rep) delay st).completions = [] ∧
    (on_recv_reply E mcp now key (some rep) delay st).requests key = none ∧
    ((on_recv_reply E mcp now key (some rep) delay st).requests
        E.fresh_id).map match_entry.request =
      some { e.request with id := E.fresh_id,
                            to_address := rep.body_addr } := by
  have hcall := call_ip_reset_success E mcp now ip p e.request
    (upd st key none) hport hfrom hhook
    (by rw [upd_ne st key none E.fresh_id hne]; exact hfree)
  unfold on_recv_reply
  rw [hentry]
  simp [herr, hgroup, hbody, hmode, hauto, hcall, Ne.symm hne]

/-- witness for C4: the sample redirect reply moves the pending call of id
7 to the fresh id 5, aimed at the body address, and sets the leader hint. -/
theorem recv_reply_forward_redirect_witness :
    sampleRequests 7 = some sampleEntry ∧
    (on_recv_reply sampleEnv 1023 0 7 (some sampleForwardReply) 0
        sampleRequests).leader_op =
      some (leader_op.set_leader (rpc_address.ipv4 9 9100)) ∧
    (on_recv_reply sampleEnv 1023 0 7 (some sampleForwardReply) 0
        sampleRequests).requests 7 = none ∧
    ((on_recv_reply sampleEnv 1023 0 7 (some sampleForwardReply) 0
        sampleRequests).requests 5).map match_entry.request =
      some { sampleReq with id := 5,
                            to_address := rpc_address.ipv4 9 9100 } := by
  have h := recv_reply_forward_redirect sampleEnv 1023 0 7 0 sampleRequests
    sampleEntry sampleForwardReply 0 9 9100 rfl rfl rfl rfl rfl rfl
    (by decide) (by decide) rfl rfl (by decide)
  exact ⟨rfl, h.2.1, h.2.2.2.2.2.2.1, h.2.2.2.2.2.2.2⟩

/-- C10: if on_recv_reply finds the entry and the reply either is a
FORWARD_TO_OTHERS redirect or carries the is_forwarded flag, then a
non-group server address hits the fatal `dassert(false, "not implemented")`
and no completion reaches the call, while a group server address never
hits it on the is_forwarded path (the redirect path instead proceeds into
the re-issue, see the redirect theorem). -/
theorem recv_reply_nongroup_forward_fatal (E : Env) (mcp now key delay : Nat)
    (st : Requests) (e : match_entry) (rep : message_ex)
    (hentry : st key = some e)
    (hshape : rep.server_error_code = error_code.forward_to_others ∨
      rep.is_forwarded = true) :
    (e.request.server_address.type ≠ host_type.group →
      (on_recv_reply E mcp now key (some rep) delay st).fatal = true ∧
      (on_recv_reply E mcp now key (some rep) delay st).completions = []) ∧
    (e.request.server_address.type = host_type.group ∧
        rep.server_error_code ≠ error_code.forward_to_others →
      (on_recv_reply E mcp now key (some rep) delay st).fatal = false) := by
  constructor
  · intro hng
    unfold on_recv_reply
    rw [hentry]
    by_cases herr : rep.server_error_code = error_code.forward_to_others
    · cases ha : e.request.server_address with
      | group gid => rw [ha] at hng; simp [rpc_address.type] at hng
      | invalid => simp [herr, ha]
      | ipv4 i q => simp [herr, ha]
      | uri u => simp [herr, ha]
    · have hf : rep.is_forwarded = true := hshape.resolve_left herr
      cases ha : e.request.server_address with
      | group gid => rw [ha] at hng; simp [rpc_address.type] at hng
      | invalid => simp [herr, hf, ha]
      | ipv4 i q => simp [herr, hf, ha]
      | uri u => simp [herr, hf, ha]
  · rintro ⟨hg, herr⟩
    unfold on_recv_reply
    rw [hentry]
    cases ha : e.request.server_address with
    | group gid =>
        by_cases hf : rep.is_forwarded = true
        · simp [herr, ha, hf]
        · simp [herr, ha, hf]
    | invalid => rw [ha] at hg; simp [rpc_address.type] at hg
    | ipv4 i q => rw [ha] at hg; simp [rpc_address.type] at hg
    | uri u => rw [ha] at hg; simp [rpc_address.type] at hg

/-- witness for C10: the redirect reply against a plain-IPv4-addressed
request trips the fatal assertion, and the same reply shape against the
group-addressed request of the redirect witness does not. -/
theorem recv_reply_nongroup_forward_fatal_witness :
    ipRequests 7 = some ipEntry ∧
    ipEntry.request.server_address.type ≠ host_type.group ∧
    (on_recv_reply sampleEnv 1023 0 7 (some sampleForwardReply) 0
        ipRequests).fatal = true ∧
    (on_recv_reply sampleEnv 1023 0 7 (some sampleForwardReply) 0
        ipRequests).completions = [] := by
  have h := (recv_reply_nongroup_forward_fatal sampleEnv 1023 0 7 0
    ipRequests ipEntry sampleForwardReply rfl (Or.inl rfl)).1 (by decide)
  exact ⟨rfl, by decide, h.1, h.2⟩

/-- C5: the URI retry shim leaves the completion alone (delivering the
error, reporting nothing to the resolver) whenever the error is OK,
HANDLER_NOT_FOUND, APP_NOT_EXIST or OPERATION_DISABLED or the gpid is
unassigned; when it triggers (retryable error, assigned gpid, resolver
present) it reports the access failure, computes the backoff
gap = min(8 << send_retry_count, 1000), and retries — incrementing
send_retry_count and shrinking client.timeout_ms to deadline - now - gap —
exactly when now + gap < deadline, delivering TIMEOUT to the original
callback otherwise. -/
theorem uri_retry_shim_behaviour (deadline now : Nat) (err : error_code)
    (req : message_ex) :
    (err = error_code.ok ∨ err = error_code.handler_not_found ∨
        err = error_code.app_not_exist ∨ err = error_code.operation_disabled ∨
        req.gpid.value = 0 →
      ∀ rp : Bool, uri_retry_callback deadline rp now err req =
        { access_failure := none, action := uri_action.deliver err }) ∧
    (req.gpid.value ≠ 0 ∧ err ≠ error_code.ok ∧
        err ≠ error_code.handler_not_found ∧ err ≠ error_code.app_not_exist ∧
        err ≠ error_code.operation_disabled →
      (uri_retry_callback deadline true now err req).access_failure =
        some (req.gpid.partition_index, err) ∧
      (now + min (8 * 2 ^ req.send_retry_count) 1000 < deadline →
        (uri_retry_callback deadline true now err req).action =
          uri_action.retry
            { req with send_retry_count := req.send_retry_count + 1,
                       timeout_ms := deadline - now -
                         min (8 * 2 ^ req.send_retry_count) 1000 }
            (min (8 * 2 ^ req.send_retry_count) 1000)) ∧
      (¬ now + min (8 * 2 ^ req.send_retry_count) 1000 < deadline →
        (uri_retry_callback deadline true now err req).action =
          uri_action.deliver error_code.timeout)) := by
  have hgap : (if 8 * 2 ^ req.send_retry_count > 1000 then 1000
      else 8 * 2 ^ req.send_retry_count) =
      min (8 * 2 ^ req.send_retry_count) 1000 := by
    split <;> omega
  constructor
  · intro h rp
    have hcond : ¬ (req.gpid.value ≠ 0 ∧ err ≠ error_code.ok ∧
        err ≠ error_code.handler_not_found ∧ err ≠ error_code.app_not_exist ∧
        err ≠ error_code.operation_disabled) := by
      rcases h with h | h | h | h | h <;> simp [h]
    unfold uri_retry_callback
    rw [if_neg hcond]
  · intro hc
    unfold uri_retry_callback
    rw [if_pos hc]
    rw [if_pos rfl]
    simp only [hgap]
    refine ⟨?_, ?_, ?_⟩
    · split <;> rfl
    · intro hlt
      rw [if_pos hlt]
    · intro hge
      rw [if_neg hge]

/-- witness for C5: a generic error on an assigned partition with budget
left retries after an 8 ms gap with the shrunk timeout; OK never triggers
the shim. -/
theorem uri_retry_shim_behaviour_witness :
    uriReq.gpid.value ≠ 0 ∧
    (uri_retry_callback 1000 true 0 (error_code.other 42) uriReq).action =
      uri_action.retry
        { uriReq with send_retry_count := 1, timeout_ms := 992 } 8 ∧
    (uri_retry_callback 1000 true 0 (error_code.other 42)
        uriReq).access_failure = some (2, error_code.other 42) ∧
    uri_retry_callback 1000 true 0 error_code.ok uriReq =
      { access_failure := none, action := uri_action.deliver error_code.ok } := by
  have h := (uri_retry_shim_behaviour 1000 0 (error_code.other 42) uriReq).2
    (by refine ⟨by decide, ?_, ?_, ?_, ?_⟩ <;> decide)
  have h0 := (uri_retry_shim_behaviour 1000 0 error_code.ok uriReq).1
    (Or.inl rfl) true
  exact ⟨by decide, by simpa using h.2.1 (by decide), by simpa using h.1, h0⟩

/-- C6 counterexample: a response with an owning session whose rpc code
never resolved (local_rpc_code = TASK_CODE_INVALID) is stamped and sent
over the session, but the on_rpc_reply hook is not fired — refuting the
claim that every reply call fires the hook. -/
theorem reply_hook_not_always_fired :
    (rpc_engine_reply sampleEnv hooklessResp error_code.ok).hook_fired =
      false ∧
    (rpc_engine_reply sampleEnv hooklessResp error_code.ok).outcome =
      reply_outcome.sent reply_route.session := by
  exact ⟨rfl, rfl⟩

/-- C6 (amended): reply drops a response with no owning session and an
invalid to-address up front — unsent, unstamped, hook unfired; any other
response gets err stamped into server.error_code and server.error_name,
has the on_rpc_reply hook fired exactly when its rpc code resolves to a
task_spec and a current task exists, and is never dropped for an invalid
target. -/
theorem reply_stamps_routes_and_drops (E : Env) (response : message_ex)
    (err : error_code) :
    (response.io_session = none ∧
        response.to_address = rpc_address.invalid →
      rpc_engine_reply E response err =
        { response := response, hook_fired := false,
          outcome := reply_outcome.dropped_invalid_target }) ∧
    (¬ (response.io_session = none ∧
        response.to_address = rpc_address.invalid) →
      (rpc_engine_reply E response err).response.server_error_code = err ∧
      (rpc_engine_reply E response err).response.server_error_name =
        err.to_string ∧
      (rpc_engine_reply E response err).hook_fired =
        (decide (response.local_rpc_code ≠ TASK_CODE_INVALID) &&
          E.cur_task_present) ∧
      (rpc_engine_reply E response err).outcome ≠
        reply_outcome.dropped_invalid_target) := by
  constructor
  · intro h
    unfold rpc_engine_reply
    rw [if_pos h]
  · intro h
    unfold rpc_engine_reply
    rw [if_neg h]
    cases hs : response.io_session with
    | none =>
        dsimp only
        refine ⟨rfl, rfl, rfl, ?_⟩
        split <;> simp
    | some s =>
        dsimp only
        by_cases hf : response.is_forwarded = false
        · rw [if_pos hf]
          refine ⟨rfl, rfl, rfl, ?_⟩
          split <;> simp
        · rw [if_neg hf]
          refine ⟨rfl, rfl, rfl, ?_⟩
          split <;> simp

/-- witness for C6 (amended) at concrete responses: the session-held
response is stamped with TIMEOUT and is not dropped for an invalid target;
the sessionless invalid-target response is dropped whole. -/
theorem reply_stamps_routes_and_drops_witness :
    (¬ (hooklessResp.io_session = none ∧
        hooklessResp.to_address = rpc_address.invalid)) ∧
    (rpc_engine_reply sampleEnv hooklessResp
        error_code.timeout).response.server_error_code =
      error_code.timeout ∧
    (rpc_engine_reply sampleEnv hooklessResp
        error_code.timeout).response.server_error_name = "ERR_TIMEOUT" ∧
    ((sampleReq.io_session = none ∧
        { sampleReq with to_address := rpc_address.invalid }.to_address =
          rpc_address.invalid) ∧
      rpc_engine_reply sampleEnv
          { sampleReq with to_address := rpc_address.invalid }
          error_code.timeout =
        { response := { sampleReq with to_address := rpc_address.invalid },
          hook_fired := false,
          outcome := reply_outcome.dropped_invalid_target }) := by
  have h := (reply_stamps_routes_and_drops sampleEnv hooklessResp
    error_code.timeout).2 (by decide)
  have h2 := (reply_stamps_routes_and_drops sampleEnv
    { sampleReq with to_address := rpc_address.invalid }
    error_code.timeout).1 ⟨rfl, rfl⟩
  exact ⟨by decide, h.1, h.2.1, ⟨⟨rfl, rfl⟩, h2⟩⟩

theorem call_ip_forward_success (E : Env) (mcp now ip p : Nat)
    (req : message_ex) (st : Requests)
    (hport : mcp < p) (hfrom : req.from_address ≠ rpc_address.invalid)
    (hhook : E.hook_ok = true) (hnf : req.is_forwarded = false) :
    call_ip E mcp now (rpc_address.ipv4 ip p) req false false true st =
      { fatal := false, sent := true,
        request := { req with to_address := rpc_address.ipv4 ip p,
                              is_forwarded := true },
        requests := st, completions := [] } := by
  have hm := call_ip_mutate_forward E (rpc_address.ipv4 ip p) req hnf
  unfold call_ip
  rw [hm]
  rw [if_neg (by simp [rpc_address.type, rpc_address.port, hfrom]; omega)]
  rw [if_neg (by simp [hhook])]
  rfl

/-- C8: forward(request, address) with the dassert preconditions satisfied:
a pure-client origin (from-port ≤ MAX_CLIENT_PORT) makes no outbound call —
the result is a synthesized response carrying the forwarding address as
body, handed to reply with FORWARD_TO_OTHERS, which (for a session-held,
unforwarded request with the hook accepting) goes out over the original
session stamped FORWARD_TO_OTHERS; a server-range origin instead copies the
request and re-issues it through call_ip with no pending call (the matcher
is untouched), the same request id, and the forwarded flag set. -/
theorem forward_pure_client_or_real (E : Env) (mcp now : Nat)
    (primary : rpc_address) (request : message_ex) (st : Requests)
    (ip p s : Nat)
    (hreq : request.is_request = true)
    (hsup : request.is_forward_supported = true)
    (hnp : rpc_address.ipv4 ip p ≠ primary) :
    (request.from_address.port ≤ mcp →
      rpc_engine_forward E mcp now primary request (rpc_address.ipv4 ip p)
          st =
        forward_result.fake
          { message_ex.create_response request with
              body_addr := rpc_address.ipv4 ip p }
          (rpc_engine_reply E
            { message_ex.create_response request with
                body_addr := rpc_address.ipv4 ip p }
            error_code.forward_to_others) ∧
      (request.io_session = some s → request.is_forwarded = false →
        E.reply_hook_ok = true →
        (rpc_engine_reply E
          { message_ex.create_response request with
              body_addr := rpc_address.ipv4 ip p }
          error_code.forward_to_others).outcome =
            reply_outcome.sent reply_route.session ∧
        (rpc_engine_reply E
          { message_ex.create_response request with
              body_addr := rpc_address.ipv4 ip p }
          error_code.forward_to_others).response.server_error_code =
            error_code.forward_to_others ∧
        (rpc_engine_reply E
          { message_ex.create_response request with
              body_addr := rpc_address.ipv4 ip p }
          error_code.forward_to_others).response.body_addr =
            rpc_address.ipv4 ip p)) ∧
    (¬ request.from_address.port ≤ mcp → mcp < p →
      request.from_address ≠ rpc_address.invalid → E.hook_ok = true →
      request.is_forwarded = false →
      rpc_engine_forward E mcp now primary request (rpc_address.ipv4 ip p)
          st =
        forward_result.real
          { fatal := false, sent := true,
            request := { request with to_address := rpc_address.ipv4 ip p,
                                      is_forwarded := true },
            requests := st, completions := [] }) := by
  constructor
  · intro hpc
    constructor
    · unfold rpc_engine_forward
      rw [if_neg (by simp [hreq, hsup, hnp])]
      rw [if_pos hpc]
    · intro hsess hnf hrh
      unfold rpc_engine_reply
      rw [if_neg (by simp [message_ex.create_response, hsess])]
      simp [message_ex.create_response, hsess, hnf, hrh,
        apply_ite reply_out.outcome, apply_ite reply_out.response]
  · intro hpc hp2 hfrom hhook hnf
    unfold rpc_engine_forward
    rw [if_neg (by simp [hreq, hsup, hnp])]
    rw [if_neg hpc]
    rw [call_ip_forward_success E mcp now ip p request st hp2 hfrom hhook hnf]

/-- witness for C8: a request from a pure-client port is fake-forwarded —
the body of the synthesized response is the target address and it goes
back over the original session with FORWARD_TO_OTHERS; a request from a
server port is really forwarded with the same id and the flag set. -/
theorem forward_pure_client_or_real_witness :
    (let clientReq := { sampleReq with
        from_address := rpc_address.ipv4 1 80, io_session := some 1 }
     clientReq.from_address.port ≤ 1023 ∧
     (rpc_engine_reply sampleEnv
        { message_ex.create_response clientReq with
            body_addr := rpc_address.ipv4 9 9100 }
        error_code.forward_to_others).outcome =
      reply_outcome.sent reply_route.session) ∧
    rpc_engine_forward sampleEnv 1023 0 addrA sampleReq
        (rpc_address.ipv4 9 9100) sampleRequests =
      forward_result.real
        { fatal := false, sent := true,
          request := { sampleReq with to_address := rpc_address.ipv4 9 9100,
                                      is_forwarded := true },
          requests := sampleRequests, completions := [] } := by
  constructor
  · refine ⟨by decide, ?_⟩
    exact (((forward_pure_client_or_real sampleEnv 1023 0 addrA
      { sampleReq with from_address := rpc_address.ipv4 1 80,
                       io_session := some 1 }
      sampleRequests 9 9100 1 rfl rfl (by decide)).1 (by decide)).2
      rfl rfl rfl).1
  · exact (forward_pure_client_or_real sampleEnv 1023 0 addrA sampleReq
      sampleRequests 9 9100 1 rfl rfl (by decide)).2 (by decide) (by decide)
      (by decide) rfl rfl

/-- C9: registering a handler and then unregistering its code removes both
name-index aliases and clears the code slot, returning true, after which
registering the same code with the same extra name succeeds again;
unregistering an absent code returns false and leaves the registry
untouched. -/
theorem register_unregister_register (cname : Nat → String) (code : Nat)
    (extra_name : String) (hfn : Nat) (st : dispatcher_state)
    (h1 : st.handlers (cname code) = none)
    (h2 : st.handlers extra_name = none) :
    (register_rpc_handler cname code extra_name hfn st).1 = true ∧
    (unregister_rpc_handler cname code
        (register_rpc_handler cname code extra_name hfn st).2).1 = true ∧
    (unregister_rpc_handler cname code
        (register_rpc_handler cname code extra_name hfn st).2).2.handlers
      (cname code) = none ∧
    (unregister_rpc_handler cname code
        (register_rpc_handler cname code extra_name hfn st).2).2.handlers
      extra_name = none ∧
    (unregister_rpc_handler cname code
        (register_rpc_handler cname code extra_name hfn st).2).2.vhandlers
      code = none ∧
    (register_rpc_handler cname code extra_name hfn
        (unregister_rpc_handler cname code
          (register_rpc_handler cname code extra_name hfn st).2).2).1 =
      true ∧
    (∀ st3 : dispatcher_state, st3.handlers (cname code) = none →
      unregister_rpc_handler cname code st3 = (false, st3)) := by
  have hreg : register_rpc_handler cname code extra_name hfn st =
      (true,
        { handlers := fun s =>
            if s = extra_name then some ⟨code, extra_name, hfn⟩
            else if s = cname code then some ⟨code, extra_name, hfn⟩
            else st.handlers s,
          vhandlers := fun c =>
            if c = code then some ⟨code, extra_name, hfn⟩
            else st.vhandlers c }) := by
    unfold register_rpc_handler
    rw [h1, h2]
  have hfind : (register_rpc_handler cname code extra_name hfn
      st).2.handlers (cname code) = some ⟨code, extra_name, hfn⟩ := by
    rw [hreg]
    by_cases hc : cname code = extra_name <;> simp [hc]
  have hunreg : unregister_rpc_handler cname code
      (register_rpc_handler cname code extra_name hfn st).2 =
      (true,
        { handlers := fun s =>
            if s = extra_name then none
            else if s = cname code then none
            else (register_rpc_handler cname code extra_name hfn
              st).2.handlers s,
          vhandlers := fun c =>
            if c = code then none
            else (register_rpc_handler cname code extra_name hfn
              st).2.vhandlers c }) := by
    unfold unregister_rpc_handler
    rw [hfind]
  have h3 : (unregister_rpc_handler cname code
      (register_rpc_handler cname code extra_name hfn st).2).2.handlers
      (cname code) = none := by
    rw [hunreg]
    by_cases hc : cname code = extra_name <;> simp [hc]
  have h4 : (unregister_rpc_handler cname code
      (register_rpc_handler cname code extra_name hfn st).2).2.handlers
      extra_name = none := by
    rw [hunreg]
    simp
  refine ⟨by rw [hreg], by rw [hunreg], h3, h4, by rw [hunreg]; simp,
    ?_, ?_⟩
  · have h3b := h3
    have h4b := h4
    generalize hg : (unregister_rpc_handler cname code
      (register_rpc_handler cname code extra_name hfn st).2).2 = st2
      at h3b h4b ⊢
    unfold register_rpc_handler
    rw [h3b, h4b]
  · intro st3 h0
    unfold unregister_rpc_handler
    rw [h0]

/-- witness for C9 on the empty registry with code 42 and alias "Echo". -/
theorem register_unregister_register_witness :
    emptyDispatcher.handlers (toString 42) = none ∧
    emptyDispatcher.handlers ("Echo") = none ∧
    (register_rpc_handler toString 42 "Echo" 1 emptyDispatcher).1 = true ∧
    (unregister_rpc_handler toString 42
        (register_rpc_handler toString 42 "Echo" 1
          emptyDispatcher).2).1 = true ∧
    (register_rpc_handler toString 42 "Echo" 1
        (unregister_rpc_handler toString 42
          (register_rpc_handler toString 42 "Echo" 1
            emptyDispatcher).2).2).1 = true ∧
    unregister_rpc_handler toString 99 emptyDispatcher =
      (false, emptyDispatcher) := by
  have h := register_unregister_register toString 42 "Echo" 1
    emptyDispatcher rfl rfl
  exact ⟨rfl, rfl, h.1, h.2.1, h.2.2.2.2.2.1, h.2.2.2.2.2.2
    emptyDispatcher rfl⟩

end RpcEngine
